import Mathlib

/-!
# Verification of `cli/download_source.go`

A shallow embedding of the source-acquisition core: canonical-source caching
(`alreadyHaveLatestCode`), the acquisition orchestrator
(`downloadTerraformSourceIfNecessary`, `downloadTerraformSource`) and the
go-getter registry override (`copyFiles`).

External collaborators (the `util`, `config` and `options` packages, the hook
runner, the Go standard library and go-getter) are modelled at their interface
boundary: an explicit filesystem state `FS` records what exists on disk, and an
environment `Env` records the outcome each external call would produce.  The
side effects the orchestrator performs are recorded as an event trace so that
ordering and frame properties can be stated.
-/

namespace Terragrunt

/-- Abstract error values.  `Err.base tag` is an error produced by some external
call (filesystem, network, hooks); `Err.stack e` models
`errors.WithStackTrace(e)`, which wraps an error with stack-trace context. -/
inductive Err where
  | base (tag : String)
  | stack (e : Err)
deriving DecidableEq, Repr

/-- Models `errors.WithStackTrace`. -/
def withStackTrace (e : Err) : Err := Err.stack e

/-- The `TerraformSource` descriptor produced by `config.ProcessTerraformSource`:
the canonical source URL and the derived download directory, working directory
and version-marker file path. -/
structure TerraformSource where
  canonicalSourceURL : String
  downloadDir : String
  workingDir : String
  versionFile : String
deriving DecidableEq, Repr

/-- The fields of `options.TerragruntOptions` that `download_source.go` reads
or writes. -/
structure TerragruntOptions where
  workingDir : String
  source : String
  sourceUpdate : Bool
  terraformCommand : String
  terragruntConfigPath : String
deriving DecidableEq, Repr

/-- Modelled from the spec: `options.TerragruntOptions.Clone` (the `options`
package is not part of the sampled source).  Per the spec ("clone the options
value before overriding the command field; never mutate shared/caller-owned
option state in place") it returns a copy of the options carrying the given
config path. -/
def TerragruntOptions.Clone (o : TerragruntOptions) (configPath : String) :
    TerragruntOptions :=
  { o with terragruntConfigPath := configPath }

/-- The constant `MODULE_MANIFEST_NAME` from `download_source.go`. -/
def MODULE_MANIFEST_NAME : String := ".terragrunt-module-manifest"

/-- The synthetic lifecycle command `CMD_INIT_FROM_MODULE` that hook
definitions key on for the download action. -/
def CMD_INIT_FROM_MODULE : String := "init-from-module"

/-- The state of the parts of the filesystem the acquisition touches.
`workingDirEntries` are the names of the entries directly inside the working
directory (no path separator in them); `workingDirSubFiles` are the relative
paths of files that live only in subdirectories of the working directory. -/
structure FS where
  downloadDirExists : Bool
  workingDirExists : Bool
  versionFileExists : Bool
  versionFileContents : String
  workingDirEntries : List String
  workingDirSubFiles : List String
deriving DecidableEq, Repr

/-- Outcomes of the external calls one acquisition performs, and the content
the fetch backend and the operator's tree would contribute.  A `some e` in an
error slot means that external call fails with `e`; `none` means it succeeds. -/
structure Env where
  removeAllErr : Option Err
  globErr : Option Err
  readVersionErr : Option Err
  beforeHookErr : Option Err
  getAnyErr : Option Err
  afterHookErr : Option Err
  writeVersionErr : Option Err
  copyFolderErr : Option Err
  fetchedWorkingDirExists : Bool
  fetchedWorkingDirEntries : List String
  fetchedWorkingDirSubFiles : List String
  operatorDirEntries : List String
deriving DecidableEq, Repr

/-- Side effects of an acquisition, recorded in order of occurrence. -/
inductive Event where
  | removeAll (dir : String)
  | cacheCheck (result : Bool)
  | runHooks (actionName : String) (terraformCommand : String)
  | fetchBackend (url : String) (dest : String)
  | writeMarker (contents : String)
  | copyFolder (fromDir : String) (toDir : String) (excl : String)
  | setWorkingDir (dir : String)
deriving DecidableEq, Repr

/-- Returns `true` on the events of the hook-wrapped fetch: the hook-runner
invocation and the fetch-backend transfer. -/
def Event.isFetch : Event → Bool
  | .runHooks _ _ => true
  | .fetchBackend _ _ => true
  | _ => false

/-- Returns `true` on a version-marker write event. -/
def Event.isWriteMarker : Event → Bool
  | .writeMarker _ => true
  | _ => false

/-- Returns `true` on an overlay (folder-copy) event. -/
def Event.isCopyFolder : Event → Bool
  | .copyFolder _ _ _ => true
  | _ => false

/-- The per-name test of the glob pattern `*.tf` (from Go `filepath.Match`):
`*` matches any run of non-separator characters, so a separator-free entry
name matches exactly when it ends in `".tf"`. -/
def matchesTfPattern (n : String) : Bool := ".tf".data.isSuffixOf n.data

/-- Models `filepath.Glob(workingDir + "/*.tf")` from the Go standard library:
the pattern has a single `*`, which matches any run of non-separator
characters, so it selects exactly the entries directly inside the working
directory whose name ends in `".tf"`; files in subdirectories are never
candidates.  `Glob` can fail only with a bad-pattern error (possible here when
the interpolated directory path contains pattern meta-characters), which the
environment supplies as `globErr`. -/
def globTfFiles (fs : FS) (env : Env) : Except Err (List String) :=
  match env.globErr with
  | some e => .error (withStackTrace e)
  | none => .ok (fs.workingDirEntries.filter matchesTfPattern)

/-- Models `TerraformSource.ReadVersionFile`: returns the contents of the
version-marker file, or the error the environment assigns to the read. -/
def readVersionFile (fs : FS) (env : Env) : Except Err String :=
  match env.readVersionErr with
  | some e => .error e
  | none => .ok fs.versionFileContents

/-- Embedding of `alreadyHaveLatestCode` from `download_source.go`.
`isLocalSource` stands for `config.IsLocalSource` and `encodeSourceVersion`
for `config.EncodeSourceVersion`, both external to the sampled source and kept
abstract; the existence tests stand for `util.FileExists` on the three paths
of the descriptor. -/
def alreadyHaveLatestCode (isLocalSource : String → Bool)
    (encodeSourceVersion : String → String) (src : TerraformSource)
    (env : Env) (fs : FS) : Except Err Bool :=
  if isLocalSource src.canonicalSourceURL ||
      !fs.downloadDirExists || !fs.workingDirExists || !fs.versionFileExists then
    .ok false
  else
    match globTfFiles fs env with
    | .error e => .error e
    | .ok tfFiles =>
      if tfFiles.length = 0 then
        .ok false
      else
        let currentVersion := encodeSourceVersion src.canonicalSourceURL
        match readVersionFile fs env with
        | .error e => .error e
        | .ok previousVersion => .ok (previousVersion == currentVersion)

/-- Effect of `os.RemoveAll(terraformSource.DownloadDir)` on the filesystem
state: the download directory and everything under it (working directory,
version-marker file) are gone. -/
def removeAllDownloadDir (fs : FS) : FS :=
  { fs with downloadDirExists := false, workingDirExists := false,
            versionFileExists := false, versionFileContents := "",
            workingDirEntries := [], workingDirSubFiles := [] }

/-- Effect of a successful `getter.GetAny` transfer on the filesystem state:
the download directory now exists and the working directory holds whatever
the fetched tree contains. -/
def fetchedFS (env : Env) (fs : FS) : FS :=
  { fs with downloadDirExists := true,
            workingDirExists := env.fetchedWorkingDirExists,
            workingDirEntries := env.fetchedWorkingDirEntries,
            workingDirSubFiles := env.fetchedWorkingDirSubFiles }

/-- Embedding of `downloadSource`: `getter.GetAny` transfers the canonical
source into the download directory (the fetched tree coming from the
environment) and a failure is wrapped with `errors.WithStackTrace`. -/
def downloadSource (src : TerraformSource) (env : Env) (fs : FS) :
    Except Err Unit × FS × List Event :=
  match env.getAnyErr with
  | some e =>
    (.error (withStackTrace e), fs,
      [Event.fetchBackend src.canonicalSourceURL src.downloadDir])
  | none =>
    (.ok (), fetchedFS env fs,
      [Event.fetchBackend src.canonicalSourceURL src.downloadDir])

/-- Modelled from the spec: `runActionWithHooks` (defined elsewhere in the
`cli` package, not part of the sampled source).  Per the spec, the "before"
hooks keyed on the options' command run first, then the wrapped action, then
the "after" hooks; any failure aborts with that failure.  The event records
the action name and the command field of the options the hooks see. -/
def runActionWithHooks (actionName : String) (opts : TerragruntOptions)
    (env : Env) (action : FS → Except Err Unit × FS × List Event) (fs : FS) :
    Except Err Unit × FS × List Event :=
  match env.beforeHookErr with
  | some e => (.error e, fs, [Event.runHooks actionName opts.terraformCommand])
  | none =>
    match action fs with
    | (.error e, fs1, evs) =>
      (.error e, fs1, Event.runHooks actionName opts.terraformCommand :: evs)
    | (.ok _, fs1, evs) =>
      match env.afterHookErr with
      | some e =>
        (.error e, fs1, Event.runHooks actionName opts.terraformCommand :: evs)
      | none =>
        (.ok (), fs1, Event.runHooks actionName opts.terraformCommand :: evs)

/-- Effect of a successful version-marker write: the marker file exists and
holds the fingerprint of the canonical source URL. -/
def markedFS (encodeSourceVersion : String → String) (src : TerraformSource)
    (fs : FS) : FS :=
  { fs with versionFileExists := true,
            versionFileContents := encodeSourceVersion src.canonicalSourceURL }

/-- Modelled from the spec: `TerraformSource.WriteVersionFile` (in the
`config` package, not part of the sampled source) persists the fingerprint of
the canonical source URL to the version-marker file. -/
def writeVersionFile (encodeSourceVersion : String → String)
    (src : TerraformSource) (env : Env) (fs : FS) : Except Err Unit × FS :=
  match env.writeVersionErr with
  | some e => (.error e, fs)
  | none => (.ok (), markedFS encodeSourceVersion src fs)

/-- The options value `downloadTerraformSourceIfNecessary` builds for the
hook-wrapped download: a clone of the caller's options whose command is set to
`CMD_INIT_FROM_MODULE`. -/
def optsForDownload (opts : TerragruntOptions) : TerragruntOptions :=
  { opts.Clone opts.terragruntConfigPath with
      terraformCommand := CMD_INIT_FROM_MODULE }

/-- The part of `downloadTerraformSourceIfNecessary` after the force-update
block: consult `alreadyHaveLatestCode`, skip when up to date, otherwise run
the hook-wrapped download and then write the version marker. -/
def downloadIfNecessaryBody (isLocalSource : String → Bool)
    (encodeSourceVersion : String → String) (src : TerraformSource)
    (opts : TerragruntOptions) (env : Env) (fs : FS) :
    Except Err Unit × FS × List Event :=
  match alreadyHaveLatestCode isLocalSource encodeSourceVersion src env fs with
  | .error e => (.error e, fs, [])
  | .ok true => (.ok (), fs, [Event.cacheCheck true])
  | .ok false =>
    match runActionWithHooks "download source" (optsForDownload opts) env
        (downloadSource src env) fs with
    | (.error e, fs1, evs) => (.error e, fs1, Event.cacheCheck false :: evs)
    | (.ok _, fs1, evs) =>
      match writeVersionFile encodeSourceVersion src env fs1 with
      | (.error e, fs2) => (.error e, fs2, Event.cacheCheck false :: evs)
      | (.ok _, fs2) =>
        (.ok (), fs2,
          Event.cacheCheck false ::
            (evs ++ [Event.writeMarker
              (encodeSourceVersion src.canonicalSourceURL)]))

/-- Embedding of `downloadTerraformSourceIfNecessary`: when the
`--terragrunt-source-update` flag is set, `os.RemoveAll` the download
directory first (a failure, wrapped with a stack trace, aborts); then run the
cache check / fetch / marker-write body. -/
def downloadTerraformSourceIfNecessary (isLocalSource : String → Bool)
    (encodeSourceVersion : String → String) (src : TerraformSource)
    (opts : TerragruntOptions) (env : Env) (fs : FS) :
    Except Err Unit × FS × List Event :=
  if opts.sourceUpdate then
    match env.removeAllErr with
    | some e =>
      (.error (withStackTrace e), fs, [Event.removeAll src.downloadDir])
    | none =>
      match downloadIfNecessaryBody isLocalSource encodeSourceVersion src opts
          env (removeAllDownloadDir fs) with
      | (r, fs1, evs) => (r, fs1, Event.removeAll src.downloadDir :: evs)
  else
    downloadIfNecessaryBody isLocalSource encodeSourceVersion src opts env fs

/-- Effect of `util.CopyFolderContents(opts.WorkingDir, src.WorkingDir,
MODULE_MANIFEST_NAME)` on the filesystem state: the operator's tree (except
the manifest file) is merged into the working directory, which exists
afterwards. -/
def overlayEffect (env : Env) (fs : FS) : FS :=
  { fs with workingDirExists := true,
            workingDirEntries :=
              (fs.workingDirEntries ++
                env.operatorDirEntries.filter
                  (fun n => n ≠ MODULE_MANIFEST_NAME)).dedup }

/-- Embedding of `downloadTerraformSource`: resolve the source (the resolved
descriptor is `src`, and `resolveErr` is the outcome of
`config.ProcessTerraformSource`), fetch if necessary, overlay the operator's
working tree, and only then repoint the caller's working directory.  Returns
the result, the caller's options as left behind, the filesystem state and the
event trace. -/
def downloadTerraformSource (isLocalSource : String → Bool)
    (encodeSourceVersion : String → String) (resolveErr : Option Err)
    (src : TerraformSource) (opts : TerragruntOptions) (env : Env) (fs : FS) :
    Except Err Unit × TerragruntOptions × FS × List Event :=
  match resolveErr with
  | some e => (.error e, opts, fs, [])
  | none =>
    match downloadTerraformSourceIfNecessary isLocalSource encodeSourceVersion
        src opts env fs with
    | (.error e, fs1, evs) => (.error e, opts, fs1, evs)
    | (.ok _, fs1, evs) =>
      match env.copyFolderErr with
      | some e =>
        (.error e, opts, fs1,
          evs ++ [Event.copyFolder opts.workingDir src.workingDir
            MODULE_MANIFEST_NAME])
      | none =>
        (.ok (), { opts with workingDir := src.workingDir },
          overlayEffect env fs1,
          evs ++ [Event.copyFolder opts.workingDir src.workingDir
              MODULE_MANIFEST_NAME,
            Event.setWorkingDir src.workingDir])

/-- A go-getter backend in the rebuilt registry: either one of the
platform-default getter values, kept as is, or the `FileCopyGetter`
substituted for the `"file"` protocol. -/
inductive GetterVal (G : Type) where
  | std (g : G)
  | fileCopyGetter
deriving DecidableEq, Repr

/-- Embedding of the `copyFiles` getter-override: starting from an empty map,
every entry of the globally shared default map `getter.Getters` is copied
into a brand-new map, except that the `"file"` key is bound to
`FileCopyGetter`.  The default map is modelled as an association list with the
getter values abstract. -/
def copyFiles {G : Type} (defaultGetters : List (String × G)) :
    List (String × GetterVal G) :=
  defaultGetters.map (fun p =>
    (p.1, if p.1 = "file" then GetterVal.fileCopyGetter else GetterVal.std p.2))

/-- The combined outcome of the hook-wrapped fetch: the before-hook failure if
any, else the (stack-wrapped) backend-transfer failure if any, else the
after-hook outcome.  `none` means the whole hook-wrapped download succeeds. -/
def hookedFetchErr (env : Env) : Option Err :=
  match env.beforeHookErr with
  | some e => some e
  | none =>
    match env.getAnyErr with
    | some e => some (withStackTrace e)
    | none => env.afterHookErr

/-- The stage of an acquisition an event belongs to, in the order the stages
are specified to run: forced invalidation, cache check, hook-wrapped fetch,
backend transfer, marker write, overlay, working-directory repoint. -/
def Event.stageRank : Event → Nat
  | .removeAll _ => 0
  | .cacheCheck _ => 1
  | .runHooks _ _ => 2
  | .fetchBackend _ _ => 3
  | .writeMarker _ => 4
  | .copyFolder _ _ _ => 5
  | .setWorkingDir _ => 6

/-- The possible traces of `downloadIfNecessaryBody`: nothing (the check
errored), a cache hit, or the fetch path cut off at one of its stages. -/
def BodyTraceShape (src : TerraformSource) (contents : String)
    (t : List Event) : Prop :=
  t = [] ∨ t = [Event.cacheCheck true] ∨
  t = [Event.cacheCheck false,
        Event.runHooks "download source" CMD_INIT_FROM_MODULE] ∨
  t = [Event.cacheCheck false,
        Event.runHooks "download source" CMD_INIT_FROM_MODULE,
        Event.fetchBackend src.canonicalSourceURL src.downloadDir] ∨
  t = [Event.cacheCheck false,
        Event.runHooks "download source" CMD_INIT_FROM_MODULE,
        Event.fetchBackend src.canonicalSourceURL src.downloadDir,
        Event.writeMarker contents]

/-- The possible traces of `downloadTerraformSourceIfNecessary`: a body trace,
optionally preceded by the forced deletion, or the forced deletion alone when
it failed. -/
def IfNecTraceShape (src : TerraformSource) (contents : String)
    (t : List Event) : Prop :=
  BodyTraceShape src contents t ∨
  t = [Event.removeAll src.downloadDir] ∨
  ∃ b, BodyTraceShape src contents b ∧ t = Event.removeAll src.downloadDir :: b

/-! ## Concrete instances used by witnesses and counterexamples -/

/-- A concrete fingerprint function for witnesses (the real
`config.EncodeSourceVersion` is abstract in this development). -/
def encodeEx : String → String := fun s => "F(" ++ s ++ ")"

/-- A concrete local-path classifier for witnesses: the reference is local
when it begins with `.` or `/`. -/
def isLocalEx : String → Bool := fun s =>
  s.data.head? == some '.' || s.data.head? == some '/'

/-- A concrete remote source descriptor. -/
def srcEx : TerraformSource :=
  { canonicalSourceURL := "git::https://example/mod.git?ref=v1"
    downloadDir := "/cache/abc"
    workingDir := "/cache/abc/work"
    versionFile := "/cache/abc/.terragrunt-source-version" }

/-- A concrete local source descriptor. -/
def srcLocalEx : TerraformSource :=
  { canonicalSourceURL := "./local/mod"
    downloadDir := "/cache/loc"
    workingDir := "/cache/loc/work"
    versionFile := "/cache/loc/.terragrunt-source-version" }

/-- A fully healthy environment: every external call succeeds, the fetched
tree has a populated working directory, and the operator's tree holds one
configuration file. -/
def envOk : Env :=
  { removeAllErr := none, globErr := none, readVersionErr := none,
    beforeHookErr := none, getAnyErr := none, afterHookErr := none,
    writeVersionErr := none, copyFolderErr := none,
    fetchedWorkingDirExists := true
    fetchedWorkingDirEntries := ["main.tf"]
    fetchedWorkingDirSubFiles := []
    operatorDirEntries := ["terragrunt.hcl"] }

/-- A warm cache for `srcEx` under `encodeEx`. -/
def fsWarm : FS :=
  { downloadDirExists := true, workingDirExists := true,
    versionFileExists := true
    versionFileContents := "F(git::https://example/mod.git?ref=v1)"
    workingDirEntries := ["main.tf"], workingDirSubFiles := [] }

/-- An empty filesystem: nothing fetched yet. -/
def fsEmpty : FS :=
  { downloadDirExists := false, workingDirExists := false,
    versionFileExists := false, versionFileContents := ""
    workingDirEntries := [], workingDirSubFiles := [] }

/-- Concrete caller options (no force flag). -/
def optsEx : TerragruntOptions :=
  { workingDir := "/op", source := "", sourceUpdate := false,
    terraformCommand := "plan", terragruntConfigPath := "/op/terragrunt.hcl" }

/-- An environment whose before-hook fails. -/
def envHookFail : Env := { envOk with beforeHookErr := some (Err.base "hook failed") }

/-- A healthy environment whose fetched module tree has no `*.tf` file
directly in the working directory. -/
def envNoTf : Env := { envOk with fetchedWorkingDirEntries := ["README.md"] }

/-! ## Claims -/

/-- C1: for a remote source whose download directory, working directory and
version-marker file all exist, whose working directory holds at least one
`*.tf` file, and whose marker read and glob succeed, `alreadyHaveLatestCode`
returns `true` exactly when the stored fingerprint equals the fingerprint of
the current canonical source URL, and `false` in every other case — so the
fetch is skipped if and only if the fingerprints agree. -/
theorem alreadyHaveLatestCode_iff_fingerprint_match
    (isLocalSource : String → Bool) (encodeSourceVersion : String → String)
    (src : TerraformSource) (env : Env) (fs : FS)
    (hLocal : isLocalSource src.canonicalSourceURL = false)
    (hDl : fs.downloadDirExists = true) (hWd : fs.workingDirExists = true)
    (hVf : fs.versionFileExists = true) (hGlob : env.globErr = none)
    (hRead : env.readVersionErr = none)
    (hTf : fs.workingDirEntries.filter matchesTfPattern ≠ []) :
    (alreadyHaveLatestCode isLocalSource encodeSourceVersion src env fs
        = .ok true ↔
      fs.versionFileContents = encodeSourceVersion src.canonicalSourceURL) ∧
    (alreadyHaveLatestCode isLocalSource encodeSourceVersion src env fs
        = .ok false ↔
      fs.versionFileContents ≠ encodeSourceVersion src.canonicalSourceURL) := by
  rw [alreadyHaveLatestCode, globTfFiles, readVersionFile, hLocal, hDl, hWd,
    hVf, hGlob, hRead]
  simp [List.length_eq_zero, hTf]

/-- Witness for C1 at a concrete warm cache: the check returns `true` there,
and flipping one character of the stored fingerprint makes it return
`false`. -/
theorem alreadyHaveLatestCode_iff_fingerprint_match_witness :
    alreadyHaveLatestCode isLocalEx encodeEx srcEx envOk fsWarm = .ok true ∧
    alreadyHaveLatestCode isLocalEx encodeEx srcEx envOk
      { fsWarm with versionFileContents := "F(stale)" } = .ok false := by
  constructor
  · exact (alreadyHaveLatestCode_iff_fingerprint_match isLocalEx encodeEx srcEx
      envOk fsWarm (by decide) rfl rfl rfl rfl rfl (by decide)).1.mpr rfl
  · exact (alreadyHaveLatestCode_iff_fingerprint_match isLocalEx encodeEx srcEx
      envOk { fsWarm with versionFileContents := "F(stale)" } (by decide) rfl
      rfl rfl rfl rfl (by decide)).2.mpr (by decide)

/-- C2: for a source whose canonical URL is classified as a local filesystem
path, `alreadyHaveLatestCode` returns `false` unconditionally — whatever the
download directory, working directory, marker file or environment hold. -/
theorem alreadyHaveLatestCode_local_always_false
    (isLocalSource : String → Bool) (encodeSourceVersion : String → String)
    (src : TerraformSource) (env : Env) (fs : FS)
    (hLocal : isLocalSource src.canonicalSourceURL = true) :
    alreadyHaveLatestCode isLocalSource encodeSourceVersion src env fs
      = .ok false := by
  rw [alreadyHaveLatestCode, hLocal]
  simp

/-- Witness for C2: a local reference with a fully warm cache and a matching
marker is still reported as needing a fetch. -/
theorem alreadyHaveLatestCode_local_always_false_witness :
    alreadyHaveLatestCode isLocalEx encodeEx srcLocalEx envOk
      { fsWarm with versionFileContents := "F(./local/mod)" } = .ok false :=
  alreadyHaveLatestCode_local_always_false isLocalEx encodeEx srcLocalEx envOk
    { fsWarm with versionFileContents := "F(./local/mod)" } (by decide)

/-! ## Branch characterizations of the orchestrator -/

section Branches

variable (isLocalSource : String → Bool) (encodeSourceVersion : String → String)
variable (src : TerraformSource) (opts : TerragruntOptions) (env : Env) (fs : FS)

theorem body_of_check_error (e : Err)
    (h : alreadyHaveLatestCode isLocalSource encodeSourceVersion src env fs
      = .error e) :
    downloadIfNecessaryBody isLocalSource encodeSourceVersion src opts env fs
      = (.error e, fs, []) := by
  rw [downloadIfNecessaryBody, h]

theorem body_of_check_true
    (h : alreadyHaveLatestCode isLocalSource encodeSourceVersion src env fs
      = .ok true) :
    downloadIfNecessaryBody isLocalSource encodeSourceVersion src opts env fs
      = (.ok (), fs, [Event.cacheCheck true]) := by
  rw [downloadIfNecessaryBody, h]

theorem body_of_beforeHook_error (e : Err)
    (h : alreadyHaveLatestCode isLocalSource encodeSourceVersion src env fs
      = .ok false)
    (hb : env.beforeHookErr = some e) :
    downloadIfNecessaryBody isLocalSource encodeSourceVersion src opts env fs
      = (.error e, fs,
          [Event.cacheCheck false,
            Event.runHooks "download source" CMD_INIT_FROM_MODULE]) := by
  rw [downloadIfNecessaryBody, h]
  simp [runActionWithHooks, hb, optsForDownload, TerragruntOptions.Clone]

theorem body_of_getAny_error (e : Err)
    (h : alreadyHaveLatestCode isLocalSource encodeSourceVersion src env fs
      = .ok false)
    (hb : env.beforeHookErr = none) (hg : env.getAnyErr = some e) :
    downloadIfNecessaryBody isLocalSource encodeSourceVersion src opts env fs
      = (.error (withStackTrace e), fs,
          [Event.cacheCheck false,
            Event.runHooks "download source" CMD_INIT_FROM_MODULE,
            Event.fetchBackend src.canonicalSourceURL src.downloadDir]) := by
  rw [downloadIfNecessaryBody, h]
  simp [runActionWithHooks, hb, downloadSource, hg, optsForDownload,
    TerragruntOptions.Clone]

theorem body_of_afterHook_error (e : Err)
    (h : alreadyHaveLatestCode isLocalSource encodeSourceVersion src env fs
      = .ok false)
    (hb : env.beforeHookErr = none) (hg : env.getAnyErr = none)
    (ha : env.afterHookErr = some e) :
    downloadIfNecessaryBody isLocalSource encodeSourceVersion src opts env fs
      = (.error e, fetchedFS env fs,
          [Event.cacheCheck false,
            Event.runHooks "download source" CMD_INIT_FROM_MODULE,
            Event.fetchBackend src.canonicalSourceURL src.downloadDir]) := by
  rw [downloadIfNecessaryBody, h]
  simp [runActionWithHooks, hb, downloadSource, hg, ha, optsForDownload,
    TerragruntOptions.Clone]

theorem body_of_write_error (e : Err)
    (h : alreadyHaveLatestCode isLocalSource encodeSourceVersion src env fs
      = .ok false)
    (hb : env.beforeHookErr = none) (hg : env.getAnyErr = none)
    (ha : env.afterHookErr = none) (hw : env.writeVersionErr = some e) :
    downloadIfNecessaryBody isLocalSource encodeSourceVersion src opts env fs
      = (.error e, fetchedFS env fs,
          [Event.cacheCheck false,
            Event.runHooks "download source" CMD_INIT_FROM_MODULE,
            Event.fetchBackend src.canonicalSourceURL src.downloadDir]) := by
  rw [downloadIfNecessaryBody, h]
  simp [runActionWithHooks, hb, downloadSource, hg, ha, writeVersionFile, hw,
    optsForDownload, TerragruntOptions.Clone]

theorem body_of_success
    (h : alreadyHaveLatestCode isLocalSource encodeSourceVersion src env fs
      = .ok false)
    (hb : env.beforeHookErr = none) (hg : env.getAnyErr = none)
    (ha : env.afterHookErr = none) (hw : env.writeVersionErr = none) :
    downloadIfNecessaryBody isLocalSource encodeSourceVersion src opts env fs
      = (.ok (), markedFS encodeSourceVersion src (fetchedFS env fs),
          [Event.cacheCheck false,
            Event.runHooks "download source" CMD_INIT_FROM_MODULE,
            Event.fetchBackend src.canonicalSourceURL src.downloadDir,
            Event.writeMarker
              (encodeSourceVersion src.canonicalSourceURL)]) := by
  rw [downloadIfNecessaryBody, h]
  simp [runActionWithHooks, hb, downloadSource, hg, ha, writeVersionFile, hw,
    optsForDownload, TerragruntOptions.Clone]

theorem ifNecessary_of_not_force (hsu : opts.sourceUpdate = false) :
    downloadTerraformSourceIfNecessary isLocalSource encodeSourceVersion src
        opts env fs
      = downloadIfNecessaryBody isLocalSource encodeSourceVersion src opts env
          fs := by
  rw [downloadTerraformSourceIfNecessary, hsu]
  simp

theorem ifNecessary_of_force_removeErr (e : Err)
    (hsu : opts.sourceUpdate = true) (he : env.removeAllErr = some e) :
    downloadTerraformSourceIfNecessary isLocalSource encodeSourceVersion src
        opts env fs
      = (.error (withStackTrace e), fs, [Event.removeAll src.downloadDir]) := by
  rw [downloadTerraformSourceIfNecessary, hsu]
  simp [he]

theorem ifNecessary_of_force_removed
    (hsu : opts.sourceUpdate = true) (he : env.removeAllErr = none) :
    downloadTerraformSourceIfNecessary isLocalSource encodeSourceVersion src
        opts env fs
      = ((downloadIfNecessaryBody isLocalSource encodeSourceVersion src opts
            env (removeAllDownloadDir fs)).1,
         (downloadIfNecessaryBody isLocalSource encodeSourceVersion src opts
            env (removeAllDownloadDir fs)).2.1,
         Event.removeAll src.downloadDir ::
           (downloadIfNecessaryBody isLocalSource encodeSourceVersion src opts
              env (removeAllDownloadDir fs)).2.2) := by
  rcases hp : downloadIfNecessaryBody isLocalSource encodeSourceVersion src
    opts env (removeAllDownloadDir fs) with ⟨r, fs1, evs⟩
  rw [downloadTerraformSourceIfNecessary, hsu]
  simp [he, hp]

/-- After a forced deletion the download directory is gone, so the cache check
reports stale. -/
theorem alreadyHaveLatestCode_of_removed :
    alreadyHaveLatestCode isLocalSource encodeSourceVersion src env
      (removeAllDownloadDir fs) = .ok false := by
  rw [alreadyHaveLatestCode]
  simp [removeAllDownloadDir]

/-- On the fetch path, the body's trace opens with the cache-check event
followed by the hook-wrapped fetch event. -/
theorem body_trace_of_check_false
    (h : alreadyHaveLatestCode isLocalSource encodeSourceVersion src env fs
      = .ok false) :
    ∃ rest,
      (downloadIfNecessaryBody isLocalSource encodeSourceVersion src opts env
          fs).2.2
        = Event.cacheCheck false ::
            Event.runHooks "download source" CMD_INIT_FROM_MODULE :: rest := by
  rcases hb : env.beforeHookErr with _ | e1
  · rcases hg : env.getAnyErr with _ | e2
    · rcases ha : env.afterHookErr with _ | e3
      · rcases hw : env.writeVersionErr with _ | e4
        · rw [body_of_success isLocalSource encodeSourceVersion src opts env fs
            h hb hg ha hw]
          exact ⟨_, rfl⟩
        · rw [body_of_write_error isLocalSource encodeSourceVersion src opts
            env fs e4 h hb hg ha hw]
          exact ⟨_, rfl⟩
      · rw [body_of_afterHook_error isLocalSource encodeSourceVersion src opts
          env fs e3 h hb hg ha]
        exact ⟨_, rfl⟩
    · rw [body_of_getAny_error isLocalSource encodeSourceVersion src opts env
        fs e2 h hb hg]
      exact ⟨_, rfl⟩
  · rw [body_of_beforeHook_error isLocalSource encodeSourceVersion src opts env
      fs e1 h hb]
    exact ⟨_, rfl⟩

end Branches

/-- C3: with the force-update flag set, the acquisition first recursively
deletes the download directory; a deletion failure aborts with the
stack-wrapped error before any cache check or fetch, and a successful
deletion is always followed by a negative cache check and the hook-wrapped
fetch — the skip path is never taken. -/
theorem forceUpdate_deletes_then_always_fetches
    (isLocalSource : String → Bool) (encodeSourceVersion : String → String)
    (src : TerraformSource) (opts : TerragruntOptions) (env : Env) (fs : FS)
    (hsu : opts.sourceUpdate = true) :
    (∀ e, env.removeAllErr = some e →
      downloadTerraformSourceIfNecessary isLocalSource encodeSourceVersion src
          opts env fs
        = (.error (withStackTrace e), fs,
            [Event.removeAll src.downloadDir])) ∧
    (env.removeAllErr = none →
      ∃ rest,
        (downloadTerraformSourceIfNecessary isLocalSource encodeSourceVersion
            src opts env fs).2.2
          = Event.removeAll src.downloadDir :: Event.cacheCheck false ::
              Event.runHooks "download source" CMD_INIT_FROM_MODULE :: rest) := by
  constructor
  · intro e he
    exact ifNecessary_of_force_removeErr isLocalSource encodeSourceVersion src
      opts env fs e hsu he
  · intro he
    obtain ⟨rest, hrest⟩ := body_trace_of_check_false isLocalSource
      encodeSourceVersion src opts env (removeAllDownloadDir fs)
      (alreadyHaveLatestCode_of_removed isLocalSource encodeSourceVersion src
        env fs)
    refine ⟨rest, ?_⟩
    rw [ifNecessary_of_force_removed isLocalSource encodeSourceVersion src opts
      env fs hsu he]
    simp [hrest]

/-- Witness for C3 at concrete inputs: with the force flag set over a warm
cache, the trace opens with the deletion, a negative cache check and the
hook-wrapped fetch. -/
theorem forceUpdate_deletes_then_always_fetches_witness :
    ∃ rest,
      (downloadTerraformSourceIfNecessary isLocalEx encodeEx srcEx
          { optsEx with sourceUpdate := true } envOk fsWarm).2.2
        = Event.removeAll srcEx.downloadDir :: Event.cacheCheck false ::
            Event.runHooks "download source" CMD_INIT_FROM_MODULE :: rest :=
  (forceUpdate_deletes_then_always_fetches isLocalEx encodeEx srcEx
    { optsEx with sourceUpdate := true } envOk fsWarm rfl).2 rfl

/-! ## Trace shapes -/

theorem body_trace_shape (isLocalSource : String → Bool)
    (encodeSourceVersion : String → String) (src : TerraformSource)
    (opts : TerragruntOptions) (env : Env) (fs : FS) :
    BodyTraceShape src (encodeSourceVersion src.canonicalSourceURL)
      (downloadIfNecessaryBody isLocalSource encodeSourceVersion src opts env
          fs).2.2 := by
  rcases hchk : alreadyHaveLatestCode isLocalSource encodeSourceVersion src env
      fs with e | b
  · rw [body_of_check_error isLocalSource encodeSourceVersion src opts env fs e
      hchk]
    exact Or.inl rfl
  · rcases b with _ | _
    · rcases hb : env.beforeHookErr with _ | e1
      · rcases hg : env.getAnyErr with _ | e2
        · rcases ha : env.afterHookErr with _ | e3
          · rcases hw : env.writeVersionErr with _ | e4
            · rw [body_of_success isLocalSource encodeSourceVersion src opts
                env fs hchk hb hg ha hw]
              exact Or.inr (Or.inr (Or.inr (Or.inr rfl)))
            · rw [body_of_write_error isLocalSource encodeSourceVersion src
                opts env fs e4 hchk hb hg ha hw]
              exact Or.inr (Or.inr (Or.inr (Or.inl rfl)))
          · rw [body_of_afterHook_error isLocalSource encodeSourceVersion src
              opts env fs e3 hchk hb hg ha]
            exact Or.inr (Or.inr (Or.inr (Or.inl rfl)))
        · rw [body_of_getAny_error isLocalSource encodeSourceVersion src opts
            env fs e2 hchk hb hg]
          exact Or.inr (Or.inr (Or.inr (Or.inl rfl)))
      · rw [body_of_beforeHook_error isLocalSource encodeSourceVersion src opts
          env fs e1 hchk hb]
        exact Or.inr (Or.inr (Or.inl rfl))
    · rw [body_of_check_true isLocalSource encodeSourceVersion src opts env fs
        hchk]
      exact Or.inr (Or.inl rfl)

theorem ifNecessary_trace_shape (isLocalSource : String → Bool)
    (encodeSourceVersion : String → String) (src : TerraformSource)
    (opts : TerragruntOptions) (env : Env) (fs : FS) :
    IfNecTraceShape src (encodeSourceVersion src.canonicalSourceURL)
      (downloadTerraformSourceIfNecessary isLocalSource encodeSourceVersion src
          opts env fs).2.2 := by
  rcases hsu : opts.sourceUpdate with _ | _
  · rw [ifNecessary_of_not_force isLocalSource encodeSourceVersion src opts env
      fs hsu]
    exact Or.inl (body_trace_shape isLocalSource encodeSourceVersion src opts
      env fs)
  · rcases hrm : env.removeAllErr with _ | e
    · rw [ifNecessary_of_force_removed isLocalSource encodeSourceVersion src
        opts env fs hsu hrm]
      exact Or.inr (Or.inr ⟨_, body_trace_shape isLocalSource
        encodeSourceVersion src opts env (removeAllDownloadDir fs), rfl⟩)
    · rw [ifNecessary_of_force_removeErr isLocalSource encodeSourceVersion src
        opts env fs e hsu hrm]
      exact Or.inr (Or.inl rfl)

theorem top_of_resolveErr (isLocalSource : String → Bool)
    (encodeSourceVersion : String → String) (resolveErr : Option Err)
    (src : TerraformSource) (opts : TerragruntOptions) (env : Env) (fs : FS)
    (e : Err) (h : resolveErr = some e) :
    downloadTerraformSource isLocalSource encodeSourceVersion resolveErr src
        opts env fs
      = (.error e, opts, fs, []) := by
  subst h
  rw [downloadTerraformSource]

theorem top_of_ifNec_error (isLocalSource : String → Bool)
    (encodeSourceVersion : String → String) (resolveErr : Option Err)
    (src : TerraformSource) (opts : TerragruntOptions) (env : Env) (fs : FS)
    (e : Err) (fs1 : FS) (evs : List Event) (h : resolveErr = none)
    (hn : downloadTerraformSourceIfNecessary isLocalSource encodeSourceVersion
      src opts env fs = (.error e, fs1, evs)) :
    downloadTerraformSource isLocalSource encodeSourceVersion resolveErr src
        opts env fs
      = (.error e, opts, fs1, evs) := by
  subst h
  simp [downloadTerraformSource, hn]

theorem top_trace_of_resolved (isLocalSource : String → Bool)
    (encodeSourceVersion : String → String) (resolveErr : Option Err)
    (src : TerraformSource) (opts : TerragruntOptions) (env : Env) (fs : FS)
    (h : resolveErr = none) :
    ∃ suf,
      (downloadTerraformSource isLocalSource encodeSourceVersion resolveErr src
          opts env fs).2.2.2
        = (downloadTerraformSourceIfNecessary isLocalSource encodeSourceVersion
            src opts env fs).2.2 ++ suf ∧
      (suf = [] ∨
        suf = [Event.copyFolder opts.workingDir src.workingDir
          MODULE_MANIFEST_NAME] ∨
        suf = [Event.copyFolder opts.workingDir src.workingDir
            MODULE_MANIFEST_NAME,
          Event.setWorkingDir src.workingDir]) := by
  subst h
  rcases hn : downloadTerraformSourceIfNecessary isLocalSource
    encodeSourceVersion src opts env fs with ⟨r, fs1, evs⟩
  rcases r with e | u
  · exact ⟨[], by simp [downloadTerraformSource, hn], Or.inl rfl⟩
  · rcases hc : env.copyFolderErr with _ | e
    · exact ⟨[Event.copyFolder opts.workingDir src.workingDir
          MODULE_MANIFEST_NAME, Event.setWorkingDir src.workingDir],
        by simp [downloadTerraformSource, hn, hc], Or.inr (Or.inr rfl)⟩
    · exact ⟨[Event.copyFolder opts.workingDir src.workingDir
          MODULE_MANIFEST_NAME],
        by simp [downloadTerraformSource, hn, hc], Or.inr (Or.inl rfl)⟩

theorem chain_of_trace_shapes (src : TerraformSource) (c : String)
    (opts : TerragruntOptions) (t suf : List Event)
    (ht : IfNecTraceShape src c t)
    (hs : suf = [] ∨
      suf = [Event.copyFolder opts.workingDir src.workingDir
        MODULE_MANIFEST_NAME] ∨
      suf = [Event.copyFolder opts.workingDir src.workingDir
          MODULE_MANIFEST_NAME,
        Event.setWorkingDir src.workingDir]) :
    List.Chain' (fun a b => a.stageRank < b.stageRank) (t ++ suf) := by
  simp only [IfNecTraceShape, BodyTraceShape] at ht
  rcases ht with (h | h | h | h | h) | h | ⟨b, (h | h | h | h | h), hb⟩ <;>
    rcases hs with hs | hs | hs <;> subst_vars <;>
      simp [Event.stageRank, List.chain'_cons, List.chain'_singleton]

/-- C4: in every acquisition the recorded events occur in strict stage order —
cache check before the hook-wrapped fetch, fetch before the marker write,
marker write before the overlay — and whenever the hook-wrapped fetch fails
(before-hook, backend transfer, or after-hook), the acquisition returns that
error, no marker-write or overlay event occurs, and the version-marker file is
left untouched. -/
theorem acquisition_ordering_and_fetch_failure_aborts
    (isLocalSource : String → Bool) (encodeSourceVersion : String → String)
    (resolveErr : Option Err) (src : TerraformSource)
    (opts : TerragruntOptions) (env : Env) (fs : FS) :
    List.Chain' (fun a b => a.stageRank < b.stageRank)
      (downloadTerraformSource isLocalSource encodeSourceVersion resolveErr src
          opts env fs).2.2.2 ∧
    (∀ e, resolveErr = none → opts.sourceUpdate = false →
      alreadyHaveLatestCode isLocalSource encodeSourceVersion src env fs
        = .ok false →
      hookedFetchErr env = some e →
      (downloadTerraformSource isLocalSource encodeSourceVersion resolveErr src
          opts env fs).1 = .error e ∧
      ((downloadTerraformSource isLocalSource encodeSourceVersion resolveErr
          src opts env fs).2.2.2).all
        (fun ev => !ev.isWriteMarker && !ev.isCopyFolder) = true ∧
      (downloadTerraformSource isLocalSource encodeSourceVersion resolveErr src
          opts env fs).2.2.1.versionFileExists = fs.versionFileExists ∧
      (downloadTerraformSource isLocalSource encodeSourceVersion resolveErr src
          opts env fs).2.2.1.versionFileContents = fs.versionFileContents) := by
  constructor
  · rcases hres : resolveErr with _ | e
    · obtain ⟨suf, hsplit, hsuf⟩ := top_trace_of_resolved isLocalSource
        encodeSourceVersion none src opts env fs rfl
      rw [hsplit]
      exact chain_of_trace_shapes src (encodeSourceVersion
        src.canonicalSourceURL) opts _ suf
        (ifNecessary_trace_shape isLocalSource encodeSourceVersion src opts env
          fs) hsuf
    · rw [top_of_resolveErr isLocalSource encodeSourceVersion (some e) src
        opts env fs e rfl]
      simp
  · intro e hres hsu hchk he
    have hbody := ifNecessary_of_not_force isLocalSource encodeSourceVersion
      src opts env fs hsu
    rw [hookedFetchErr] at he
    rcases hb : env.beforeHookErr with _ | e1 <;> rw [hb] at he
    · rcases hg : env.getAnyErr with _ | e2 <;> rw [hg] at he
      · have htop := top_of_ifNec_error isLocalSource encodeSourceVersion
          resolveErr src opts env fs e (fetchedFS env fs)
          [Event.cacheCheck false,
            Event.runHooks "download source" CMD_INIT_FROM_MODULE,
            Event.fetchBackend src.canonicalSourceURL src.downloadDir] hres
          (by rw [hbody, body_of_afterHook_error isLocalSource
              encodeSourceVersion src opts env fs e hchk hb hg he])
        rw [htop]
        simp [Event.isWriteMarker, Event.isCopyFolder, fetchedFS]
      · have he2 : withStackTrace e2 = e := by
          simpa using he
        have htop := top_of_ifNec_error isLocalSource encodeSourceVersion
          resolveErr src opts env fs e fs
          [Event.cacheCheck false,
            Event.runHooks "download source" CMD_INIT_FROM_MODULE,
            Event.fetchBackend src.canonicalSourceURL src.downloadDir] hres
          (by rw [hbody, body_of_getAny_error isLocalSource encodeSourceVersion
              src opts env fs e2 hchk hb hg, he2])
        rw [htop]
        simp [Event.isWriteMarker, Event.isCopyFolder]
    · have he1 : e1 = e := by simpa using he
      have htop := top_of_ifNec_error isLocalSource encodeSourceVersion
        resolveErr src opts env fs e fs
        [Event.cacheCheck false,
          Event.runHooks "download source" CMD_INIT_FROM_MODULE] hres
        (by rw [hbody, body_of_beforeHook_error isLocalSource
            encodeSourceVersion src opts env fs e1 hchk hb, he1])
      rw [htop]
      simp [Event.isWriteMarker, Event.isCopyFolder]

/-- Witness for C4 at a concrete failing before-hook on a cold cache: the
acquisition returns the hook error, no marker or overlay event occurs, and
the marker file stays absent. -/
theorem acquisition_ordering_and_fetch_failure_aborts_witness :
    (downloadTerraformSource isLocalEx encodeEx none srcEx optsEx envHookFail
        fsEmpty).1 = .error (Err.base "hook failed") ∧
    ((downloadTerraformSource isLocalEx encodeEx none srcEx optsEx envHookFail
        fsEmpty).2.2.2).all
      (fun ev => !ev.isWriteMarker && !ev.isCopyFolder) = true ∧
    (downloadTerraformSource isLocalEx encodeEx none srcEx optsEx envHookFail
        fsEmpty).2.2.1.versionFileExists = fsEmpty.versionFileExists ∧
    (downloadTerraformSource isLocalEx encodeEx none srcEx optsEx envHookFail
        fsEmpty).2.2.1.versionFileContents = fsEmpty.versionFileContents :=
  (acquisition_ordering_and_fetch_failure_aborts isLocalEx encodeEx none srcEx
    optsEx envHookFail fsEmpty).2 (Err.base "hook failed") rfl rfl (by rfl) rfl

theorem top_opts_spec (isLocalSource : String → Bool)
    (encodeSourceVersion : String → String) (resolveErr : Option Err)
    (src : TerraformSource) (opts : TerragruntOptions) (env : Env) (fs : FS) :
    ((downloadTerraformSource isLocalSource encodeSourceVersion resolveErr src
        opts env fs).1 = .ok () →
      (downloadTerraformSource isLocalSource encodeSourceVersion resolveErr src
          opts env fs).2.1
        = { opts with workingDir := src.workingDir }) ∧
    (∀ e, (downloadTerraformSource isLocalSource encodeSourceVersion resolveErr
        src opts env fs).1 = .error e →
      (downloadTerraformSource isLocalSource encodeSourceVersion resolveErr src
          opts env fs).2.1 = opts) := by
  rcases resolveErr with _ | e0
  · rcases hn : downloadTerraformSourceIfNecessary isLocalSource
      encodeSourceVersion src opts env fs with ⟨r, fs1, evs⟩
    rcases r with e | u
    · simp [downloadTerraformSource, hn]
    · rcases hc : env.copyFolderErr with _ | e
      · simp [downloadTerraformSource, hn, hc]
      · simp [downloadTerraformSource, hn, hc]
  · simp [downloadTerraformSource]

theorem top_opts_cases (isLocalSource : String → Bool)
    (encodeSourceVersion : String → String) (resolveErr : Option Err)
    (src : TerraformSource) (opts : TerragruntOptions) (env : Env) (fs : FS) :
    (downloadTerraformSource isLocalSource encodeSourceVersion resolveErr src
        opts env fs).2.1 = opts ∨
    (downloadTerraformSource isLocalSource encodeSourceVersion resolveErr src
        opts env fs).2.1 = { opts with workingDir := src.workingDir } := by
  rcases resolveErr with _ | e0
  · rcases hn : downloadTerraformSourceIfNecessary isLocalSource
      encodeSourceVersion src opts env fs with ⟨r, fs1, evs⟩
    rcases r with e | u
    · simp [downloadTerraformSource, hn]
    · rcases hc : env.copyFolderErr with _ | e
      · simp [downloadTerraformSource, hn, hc]
      · simp [downloadTerraformSource, hn, hc]
  · simp [downloadTerraformSource]

/-- C5: the caller's working-directory pointer is repointed to the fetched
working directory exactly on overall success; on any error — resolution,
conditional fetch, or overlay — the acquisition returns that error with the
caller's options untouched. -/
theorem workingDir_repointed_only_on_success
    (isLocalSource : String → Bool) (encodeSourceVersion : String → String)
    (resolveErr : Option Err) (src : TerraformSource)
    (opts : TerragruntOptions) (env : Env) (fs : FS) :
    ((downloadTerraformSource isLocalSource encodeSourceVersion resolveErr src
        opts env fs).1 = .ok () →
      (downloadTerraformSource isLocalSource encodeSourceVersion resolveErr src
          opts env fs).2.1
        = { opts with workingDir := src.workingDir }) ∧
    (∀ e, (downloadTerraformSource isLocalSource encodeSourceVersion resolveErr
        src opts env fs).1 = .error e →
      (downloadTerraformSource isLocalSource encodeSourceVersion resolveErr src
          opts env fs).2.1 = opts) :=
  top_opts_spec isLocalSource encodeSourceVersion resolveErr src opts env fs

/-- Witness for C5: a successful cold-cache acquisition repoints the caller's
working directory to the fetched working directory, and an overlay failure
leaves the caller's options unchanged. -/
theorem workingDir_repointed_only_on_success_witness :
    (downloadTerraformSource isLocalEx encodeEx none srcEx optsEx envOk
        fsEmpty).2.1
      = { optsEx with workingDir := srcEx.workingDir } ∧
    (downloadTerraformSource isLocalEx encodeEx none srcEx optsEx
        { envOk with copyFolderErr := some (Err.base "copy failed") }
        fsEmpty).2.1 = optsEx := by
  constructor
  · exact (workingDir_repointed_only_on_success isLocalEx encodeEx none srcEx
      optsEx envOk fsEmpty).1 rfl
  · exact (workingDir_repointed_only_on_success isLocalEx encodeEx none srcEx
      optsEx { envOk with copyFolderErr := some (Err.base "copy failed") }
      fsEmpty).2 (Err.base "copy failed") rfl

/-- C7: the hook-wrapped download runs against a clone of the caller's options
that differs from them in the command field alone, set to the synthetic
download-lifecycle command; on the fetch path the hooks observe that synthetic
command, and the caller's own options keep their command, source, force flag
and config path whatever path the acquisition takes. -/
theorem hook_options_cloned_with_synthetic_command
    (isLocalSource : String → Bool) (encodeSourceVersion : String → String)
    (resolveErr : Option Err) (src : TerraformSource)
    (opts : TerragruntOptions) (env : Env) (fs : FS) :
    optsForDownload opts
      = { opts with terraformCommand := CMD_INIT_FROM_MODULE } ∧
    (opts.sourceUpdate = false →
      alreadyHaveLatestCode isLocalSource encodeSourceVersion src env fs
        = .ok false →
      ∃ rest,
        (downloadTerraformSourceIfNecessary isLocalSource encodeSourceVersion
            src opts env fs).2.2
          = Event.cacheCheck false ::
              Event.runHooks "download source" CMD_INIT_FROM_MODULE :: rest) ∧
    ((downloadTerraformSource isLocalSource encodeSourceVersion resolveErr src
        opts env fs).2.1.terraformCommand = opts.terraformCommand ∧
      (downloadTerraformSource isLocalSource encodeSourceVersion resolveErr src
        opts env fs).2.1.source = opts.source ∧
      (downloadTerraformSource isLocalSource encodeSourceVersion resolveErr src
        opts env fs).2.1.sourceUpdate = opts.sourceUpdate ∧
      (downloadTerraformSource isLocalSource encodeSourceVersion resolveErr src
        opts env fs).2.1.terragruntConfigPath = opts.terragruntConfigPath) := by
  refine ⟨by simp [optsForDownload, TerragruntOptions.Clone], ?_, ?_⟩
  · intro hsu hchk
    rw [ifNecessary_of_not_force isLocalSource encodeSourceVersion src opts env
      fs hsu]
    exact body_trace_of_check_false isLocalSource encodeSourceVersion src opts
      env fs hchk
  · rcases top_opts_cases isLocalSource encodeSourceVersion resolveErr src opts
      env fs with h | h <;> rw [h] <;> simp

/-- Witness for C7: on a concrete cold-cache run the hooks see the synthetic
`init-from-module` command while the caller's options keep `plan`. -/
theorem hook_options_cloned_with_synthetic_command_witness :
    ∃ rest,
      (downloadTerraformSourceIfNecessary isLocalEx encodeEx srcEx optsEx envOk
          fsEmpty).2.2
        = Event.cacheCheck false ::
            Event.runHooks "download source" CMD_INIT_FROM_MODULE :: rest :=
  (hook_options_cloned_with_synthetic_command isLocalEx encodeEx none srcEx
    optsEx envOk fsEmpty).2.1 rfl rfl

theorem copyFiles_lookup {G : Type} (d : List (String × G)) (k : String) :
    (copyFiles d).lookup k =
      if k = "file" then
        (d.lookup k).map (fun _ => GetterVal.fileCopyGetter)
      else
        (d.lookup k).map GetterVal.std := by
  induction d with
  | nil => simp [copyFiles]
  | cons p t ih =>
    obtain ⟨a, g⟩ := p
    by_cases hk : k = a
    · subst hk
      by_cases hf : k = "file" <;>
        simp [copyFiles, List.lookup, hf]
    · have hbeq : (k == a) = false := by
        simpa using hk
      simp only [copyFiles, List.map_cons, List.lookup, hbeq] at ih ⊢
      exact ih

/-- C6: the getter registry built by `copyFiles` is a fresh map with exactly
the key set of the globally shared default map, binding every protocol other
than `"file"` to the identical default backend and `"file"` (when present in
the default map, as it always is in go-getter) to the `FileCopyGetter`; the
default map itself is an input the construction only reads. -/
theorem copyFiles_fresh_map_overrides_file {G : Type}
    (defaultGetters : List (String × G)) :
    (copyFiles defaultGetters).map Prod.fst = defaultGetters.map Prod.fst ∧
    (∀ k, k ≠ "file" →
      (copyFiles defaultGetters).lookup k
        = (defaultGetters.lookup k).map GetterVal.std) ∧
    (copyFiles defaultGetters).lookup "file"
      = (defaultGetters.lookup "file").map
          (fun _ => GetterVal.fileCopyGetter) := by
  refine ⟨?_, ?_, ?_⟩
  · simp [copyFiles]
  · intro k hk
    rw [copyFiles_lookup]
    simp [hk]
  · rw [copyFiles_lookup]
    simp

/-- Witness for C6 on a concrete two-entry default map: the key set is
preserved, `"git"` keeps its default backend and `"file"` is rebound to the
`FileCopyGetter`. -/
theorem copyFiles_fresh_map_overrides_file_witness :
    (copyFiles [("file", 10), ("git", 20)]).map Prod.fst
      = [("file", 10), ("git", 20)].map Prod.fst ∧
    (copyFiles [("file", 10), ("git", 20)]).lookup "git"
      = some (GetterVal.std 20) ∧
    (copyFiles [("file", 10), ("git", 20)]).lookup "file"
      = some GetterVal.fileCopyGetter := by
  obtain ⟨h1, h2, h3⟩ := copyFiles_fresh_map_overrides_file
    [("file", 10), ("git", 20)]
  exact ⟨h1, by rw [h2 "git" (by decide)]; rfl, by rw [h3]; rfl⟩

/-- C9: for a remote reference whose cache directories and marker all exist,
a glob failure (stack-wrapped) or a failing marker read is returned as the
cache check's error, and the acquisition aborts with that error before any
fetch event — the failure is never treated as "stale, fetch again". -/
theorem cache_check_read_failure_aborts_without_fetch
    (isLocalSource : String → Bool) (encodeSourceVersion : String → String)
    (src : TerraformSource) (opts : TerragruntOptions) (env : Env) (fs : FS)
    (hLocal : isLocalSource src.canonicalSourceURL = false)
    (hDl : fs.downloadDirExists = true) (hWd : fs.workingDirExists = true)
    (hVf : fs.versionFileExists = true) (hsu : opts.sourceUpdate = false) :
    (∀ e, env.globErr = some e →
      alreadyHaveLatestCode isLocalSource encodeSourceVersion src env fs
        = .error (withStackTrace e) ∧
      downloadTerraformSourceIfNecessary isLocalSource encodeSourceVersion src
          opts env fs
        = (.error (withStackTrace e), fs, [])) ∧
    (∀ e, env.globErr = none → env.readVersionErr = some e →
      fs.workingDirEntries.filter matchesTfPattern ≠ [] →
      alreadyHaveLatestCode isLocalSource encodeSourceVersion src env fs
        = .error e ∧
      downloadTerraformSourceIfNecessary isLocalSource encodeSourceVersion src
          opts env fs
        = (.error e, fs, [])) := by
  constructor
  · intro e hg
    have hchk : alreadyHaveLatestCode isLocalSource encodeSourceVersion src env
        fs = .error (withStackTrace e) := by
      rw [alreadyHaveLatestCode, globTfFiles]
      simp [hLocal, hDl, hWd, hVf, hg]
    refine ⟨hchk, ?_⟩
    rw [ifNecessary_of_not_force isLocalSource encodeSourceVersion src opts env
      fs hsu]
    exact body_of_check_error isLocalSource encodeSourceVersion src opts env fs
      (withStackTrace e) hchk
  · intro e hg hr htf
    have hchk : alreadyHaveLatestCode isLocalSource encodeSourceVersion src env
        fs = .error e := by
      rw [alreadyHaveLatestCode, globTfFiles, readVersionFile]
      simp [hLocal, hDl, hWd, hVf, hg, hr, List.length_eq_zero, htf]
    refine ⟨hchk, ?_⟩
    rw [ifNecessary_of_not_force isLocalSource encodeSourceVersion src opts env
      fs hsu]
    exact body_of_check_error isLocalSource encodeSourceVersion src opts env fs
      e hchk

/-- Witness for C9 at a concrete warm cache whose marker read fails: the
check surfaces the read error and the acquisition aborts with it, with an
empty event trace. -/
theorem cache_check_read_failure_aborts_without_fetch_witness :
    alreadyHaveLatestCode isLocalEx encodeEx srcEx
        { envOk with readVersionErr := some (Err.base "read failed") } fsWarm
      = .error (Err.base "read failed") ∧
    downloadTerraformSourceIfNecessary isLocalEx encodeEx srcEx optsEx
        { envOk with readVersionErr := some (Err.base "read failed") } fsWarm
      = (.error (Err.base "read failed"), fsWarm, []) :=
  (cache_check_read_failure_aborts_without_fetch isLocalEx encodeEx srcEx
    optsEx { envOk with readVersionErr := some (Err.base "read failed") }
    fsWarm (by decide) rfl rfl rfl rfl).2 (Err.base "read failed") rfl rfl
    (by decide)

/-- C10: the "recognized configuration files" test counts exactly the entries
directly inside the working directory whose name matches the non-recursive
glob `*.tf`: the check can report a cache hit only when that filter is
non-empty, it reports stale whenever the filter is empty — even if `.tf`
files live in subdirectories or `.tf.json` files sit in the working directory
— and the files under subdirectories never influence the check. -/
theorem cache_check_counts_direct_tf_files_only
    (isLocalSource : String → Bool) (encodeSourceVersion : String → String)
    (src : TerraformSource) (env : Env) (fs : FS)
    (hLocal : isLocalSource src.canonicalSourceURL = false)
    (hDl : fs.downloadDirExists = true) (hWd : fs.workingDirExists = true)
    (hVf : fs.versionFileExists = true) (hGlob : env.globErr = none)
    (hRead : env.readVersionErr = none) :
    (alreadyHaveLatestCode isLocalSource encodeSourceVersion src env fs
        = .ok true ↔
      fs.workingDirEntries.filter matchesTfPattern ≠ [] ∧
      fs.versionFileContents = encodeSourceVersion src.canonicalSourceURL) ∧
    (fs.workingDirEntries.filter matchesTfPattern = [] →
      alreadyHaveLatestCode isLocalSource encodeSourceVersion src env fs
        = .ok false) ∧
    (∀ subs, alreadyHaveLatestCode isLocalSource encodeSourceVersion src env
        { fs with workingDirSubFiles := subs }
      = alreadyHaveLatestCode isLocalSource encodeSourceVersion src env fs) := by
  refine ⟨?_, ?_, fun subs => rfl⟩
  · by_cases htf : fs.workingDirEntries.filter matchesTfPattern = []
    · rw [alreadyHaveLatestCode, globTfFiles]
      simp [hLocal, hDl, hWd, hVf, hGlob, List.length_eq_zero, htf]
    · rw [alreadyHaveLatestCode, globTfFiles, readVersionFile]
      simp [hLocal, hDl, hWd, hVf, hGlob, hRead, List.length_eq_zero, htf]
  · intro htf
    rw [alreadyHaveLatestCode, globTfFiles]
    simp [hLocal, hDl, hWd, hVf, hGlob, List.length_eq_zero, htf]

/-- Witness for C10: a working directory holding only `main.tf.json` directly
and `modules/main.tf` in a subdirectory is treated as half-populated — the
check reports stale even though the marker matches. -/
theorem cache_check_counts_direct_tf_files_only_witness :
    alreadyHaveLatestCode isLocalEx encodeEx srcEx envOk
      { fsWarm with workingDirEntries := ["main.tf.json"],
                    workingDirSubFiles := ["modules/main.tf"] }
      = .ok false :=
  (cache_check_counts_direct_tf_files_only isLocalEx encodeEx srcEx envOk
    { fsWarm with workingDirEntries := ["main.tf.json"],
                  workingDirSubFiles := ["modules/main.tf"] }
    (by decide) rfl rfl rfl rfl rfl).2.1 (by decide)

/-- A cache hit certifies that everything it tested holds: the directories
and marker exist and the stored fingerprint equals the current one. -/
theorem check_ok_true_implies (isLocalSource : String → Bool)
    (encodeSourceVersion : String → String) (src : TerraformSource)
    (env : Env) (fs : FS)
    (h : alreadyHaveLatestCode isLocalSource encodeSourceVersion src env fs
      = .ok true) :
    fs.downloadDirExists = true ∧ fs.workingDirExists = true ∧
    fs.versionFileExists = true ∧
    fs.versionFileContents = encodeSourceVersion src.canonicalSourceURL := by
  rcases hdl : fs.downloadDirExists with _ | _
  · rw [alreadyHaveLatestCode] at h
    simp [hdl] at h
  · rcases hwd : fs.workingDirExists with _ | _
    · rw [alreadyHaveLatestCode] at h
      simp [hdl, hwd] at h
    · rcases hvf : fs.versionFileExists with _ | _
      · rw [alreadyHaveLatestCode] at h
        simp [hdl, hwd, hvf] at h
      · rcases hloc : isLocalSource src.canonicalSourceURL with _ | _
        · rcases hg : env.globErr with _ | e
          · rcases hr : env.readVersionErr with _ | e
            · rw [alreadyHaveLatestCode, globTfFiles, readVersionFile] at h
              simp [hdl, hwd, hvf, hloc, hg, hr] at h
              split at h
              · simp at h
              · simp at h
                exact ⟨rfl, rfl, rfl, h⟩
            · rw [alreadyHaveLatestCode, globTfFiles, readVersionFile] at h
              simp [hdl, hwd, hvf, hloc, hg, hr] at h
              split at h <;> simp at h
          · rw [alreadyHaveLatestCode, globTfFiles] at h
            simp [hdl, hwd, hvf, hloc, hg] at h
        · rw [alreadyHaveLatestCode] at h
          simp [hloc] at h

/-- A successful body run either hit the cache (filesystem untouched) or went
through fetch and marker write. -/
theorem body_ok_cases (isLocalSource : String → Bool)
    (encodeSourceVersion : String → String) (src : TerraformSource)
    (opts : TerragruntOptions) (env : Env) (fs fs1 : FS) (evs : List Event)
    (hn : downloadIfNecessaryBody isLocalSource encodeSourceVersion src opts
      env fs = (.ok (), fs1, evs)) :
    (alreadyHaveLatestCode isLocalSource encodeSourceVersion src env fs
        = .ok true ∧ fs1 = fs) ∨
    fs1 = markedFS encodeSourceVersion src (fetchedFS env fs) := by
  rcases hchk : alreadyHaveLatestCode isLocalSource encodeSourceVersion src env
      fs with e | b
  · rw [body_of_check_error isLocalSource encodeSourceVersion src opts env fs e
      hchk] at hn
    simp at hn
  · rcases b with _ | _
    · rcases hb : env.beforeHookErr with _ | e1
      · rcases hg : env.getAnyErr with _ | e2
        · rcases ha : env.afterHookErr with _ | e3
          · rcases hw : env.writeVersionErr with _ | e4
            · rw [body_of_success isLocalSource encodeSourceVersion src opts
                env fs hchk hb hg ha hw] at hn
              simp at hn
              exact Or.inr hn.1.symm
            · rw [body_of_write_error isLocalSource encodeSourceVersion src
                opts env fs e4 hchk hb hg ha hw] at hn
              simp at hn
          · rw [body_of_afterHook_error isLocalSource encodeSourceVersion src
              opts env fs e3 hchk hb hg ha] at hn
            simp at hn
        · rw [body_of_getAny_error isLocalSource encodeSourceVersion src opts
            env fs e2 hchk hb hg] at hn
          simp at hn
      · rw [body_of_beforeHook_error isLocalSource encodeSourceVersion src opts
          env fs e1 hchk hb] at hn
        simp at hn
    · rw [body_of_check_true isLocalSource encodeSourceVersion src opts env fs
        hchk] at hn
      simp at hn
      exact Or.inl ⟨rfl, hn.1.symm⟩

/-- After a successful acquisition (no force flag), the resulting filesystem
has the download directory, working directory and version marker in place,
and the marker holds the fingerprint of the canonical URL. -/
theorem run1_postconditions (isLocalSource : String → Bool)
    (encodeSourceVersion : String → String) (src : TerraformSource)
    (opts : TerragruntOptions) (env : Env) (fs : FS)
    (hsu : opts.sourceUpdate = false)
    (hok : (downloadTerraformSource isLocalSource encodeSourceVersion none src
      opts env fs).1 = .ok ()) :
    ((downloadTerraformSource isLocalSource encodeSourceVersion none src opts
        env fs).2.2.1).downloadDirExists = true ∧
    ((downloadTerraformSource isLocalSource encodeSourceVersion none src opts
        env fs).2.2.1).workingDirExists = true ∧
    ((downloadTerraformSource isLocalSource encodeSourceVersion none src opts
        env fs).2.2.1).versionFileExists = true ∧
    ((downloadTerraformSource isLocalSource encodeSourceVersion none src opts
        env fs).2.2.1).versionFileContents
      = encodeSourceVersion src.canonicalSourceURL := by
  rcases hn : downloadTerraformSourceIfNecessary isLocalSource
    encodeSourceVersion src opts env fs with ⟨r, fs1, evs⟩
  rcases r with e | u
  · exfalso
    simp [downloadTerraformSource, hn] at hok
  · rcases hc : env.copyFolderErr with _ | e
    · have htop : (downloadTerraformSource isLocalSource encodeSourceVersion
          none src opts env fs).2.2.1 = overlayEffect env fs1 := by
        simp [downloadTerraformSource, hn, hc]
      rw [htop]
      rw [ifNecessary_of_not_force isLocalSource encodeSourceVersion src opts
        env fs hsu] at hn
      rcases body_ok_cases isLocalSource encodeSourceVersion src opts env fs
        fs1 evs hn with ⟨hchk, hfs⟩ | hfs
      · obtain ⟨h1, h2, h3, h4⟩ := check_ok_true_implies isLocalSource
          encodeSourceVersion src env fs hchk
        subst hfs
        simp [overlayEffect, h1, h3, h4]
      · subst hfs
        simp [overlayEffect, markedFS, fetchedFS]
    · exfalso
      simp [downloadTerraformSource, hn, hc] at hok

/-- C8 counterexample: a remote module whose fetched working directory holds
no `*.tf` file directly (`README.md` only; the overlay adds
`terragrunt.hcl`).  The first acquisition succeeds, yet a rerun with the same
options and no force flag invokes the hook-wrapped fetch backend again — the
claim's "zero fetch-backend invocations" fails without a condition on the
fetched tree. -/
theorem second_acquisition_refetches_without_tf_counterexample :
    (downloadTerraformSource isLocalEx encodeEx none srcEx optsEx envNoTf
        fsEmpty).1 = .ok () ∧
    ((downloadTerraformSource isLocalEx encodeEx none srcEx optsEx envNoTf
        (downloadTerraformSource isLocalEx encodeEx none srcEx optsEx envNoTf
          fsEmpty).2.2.1).2.2.2).any
      (fun ev =>
        ev == Event.fetchBackend srcEx.canonicalSourceURL srcEx.downloadDir)
      = true := by
  exact ⟨rfl, rfl⟩

/-- C8 (amended): for a remote reference, after one successful acquisition
whose resulting working directory directly contains at least one `*.tf` file,
a second acquisition of the same reference with the same options, no force
flag, and with the second run's glob, marker read and overlay succeeding,
performs zero fetch events (neither hook-wrapped download nor backend
transfer), leaves the version-marker file unchanged, re-applies the overlay
and repoints the working-directory pointer. -/
theorem second_acquisition_skips_fetch
    (isLocalSource : String → Bool) (encodeSourceVersion : String → String)
    (src : TerraformSource) (opts : TerragruntOptions) (env1 env2 : Env)
    (fs : FS)
    (hLocal : isLocalSource src.canonicalSourceURL = false)
    (hsu : opts.sourceUpdate = false)
    (hok : (downloadTerraformSource isLocalSource encodeSourceVersion none src
      opts env1 fs).1 = .ok ())
    (htf : ((downloadTerraformSource isLocalSource encodeSourceVersion none src
      opts env1 fs).2.2.1).workingDirEntries.filter matchesTfPattern ≠ [])
    (hg2 : env2.globErr = none) (hr2 : env2.readVersionErr = none)
    (hc2 : env2.copyFolderErr = none) :
    downloadTerraformSource isLocalSource encodeSourceVersion none src opts
        env2
        (downloadTerraformSource isLocalSource encodeSourceVersion none src
          opts env1 fs).2.2.1
      = (.ok (), { opts with workingDir := src.workingDir },
          overlayEffect env2 (downloadTerraformSource isLocalSource
            encodeSourceVersion none src opts env1 fs).2.2.1,
          [Event.cacheCheck true,
            Event.copyFolder opts.workingDir src.workingDir
              MODULE_MANIFEST_NAME,
            Event.setWorkingDir src.workingDir]) ∧
    ((downloadTerraformSource isLocalSource encodeSourceVersion none src opts
        env2 (downloadTerraformSource isLocalSource encodeSourceVersion none
          src opts env1 fs).2.2.1).2.2.2).all
      (fun ev => !ev.isFetch) = true ∧
    ((downloadTerraformSource isLocalSource encodeSourceVersion none src opts
        env2 (downloadTerraformSource isLocalSource encodeSourceVersion none
          src opts env1 fs).2.2.1).2.2.1).versionFileExists
      = ((downloadTerraformSource isLocalSource encodeSourceVersion none src
          opts env1 fs).2.2.1).versionFileExists ∧
    ((downloadTerraformSource isLocalSource encodeSourceVersion none src opts
        env2 (downloadTerraformSource isLocalSource encodeSourceVersion none
          src opts env1 fs).2.2.1).2.2.1).versionFileContents
      = ((downloadTerraformSource isLocalSource encodeSourceVersion none src
          opts env1 fs).2.2.1).versionFileContents := by
  obtain ⟨h1, h2, h3, h4⟩ := run1_postconditions isLocalSource
    encodeSourceVersion src opts env1 fs hsu hok
  generalize hgen : (downloadTerraformSource isLocalSource encodeSourceVersion
    none src opts env1 fs).2.2.1 = fs1 at h1 h2 h3 h4 htf ⊢
  have hchk2 : alreadyHaveLatestCode isLocalSource encodeSourceVersion src env2
      fs1 = .ok true := by
    rw [alreadyHaveLatestCode, globTfFiles, readVersionFile]
    simp [hLocal, h1, h2, h3, h4, hg2, hr2, List.length_eq_zero, htf]
  have hn2 : downloadTerraformSourceIfNecessary isLocalSource
      encodeSourceVersion src opts env2 fs1
      = (.ok (), fs1, [Event.cacheCheck true]) := by
    rw [ifNecessary_of_not_force isLocalSource encodeSourceVersion src opts
      env2 fs1 hsu]
    exact body_of_check_true isLocalSource encodeSourceVersion src opts env2
      fs1 hchk2
  have htop : downloadTerraformSource isLocalSource encodeSourceVersion none
      src opts env2 fs1
      = (.ok (), { opts with workingDir := src.workingDir },
          overlayEffect env2 fs1,
          [Event.cacheCheck true,
            Event.copyFolder opts.workingDir src.workingDir
              MODULE_MANIFEST_NAME,
            Event.setWorkingDir src.workingDir]) := by
    simp [downloadTerraformSource, hn2, hc2]
  refine ⟨htop, ?_, ?_, ?_⟩ <;> rw [htop] <;>
    simp [overlayEffect, Event.isFetch]

/-- Witness for the amended C8 at concrete inputs: the cold-cache run
succeeds and leaves a `*.tf` file, and the second run takes exactly the
skip-fetch, re-overlay, repoint path. -/
theorem second_acquisition_skips_fetch_witness :
    downloadTerraformSource isLocalEx encodeEx none srcEx optsEx envOk
        (downloadTerraformSource isLocalEx encodeEx none srcEx optsEx envOk
          fsEmpty).2.2.1
      = (.ok (), { optsEx with workingDir := srcEx.workingDir },
          overlayEffect envOk (downloadTerraformSource isLocalEx encodeEx none
            srcEx optsEx envOk fsEmpty).2.2.1,
          [Event.cacheCheck true,
            Event.copyFolder optsEx.workingDir srcEx.workingDir
              MODULE_MANIFEST_NAME,
            Event.setWorkingDir srcEx.workingDir]) :=
  (second_acquisition_skips_fetch isLocalEx encodeEx srcEx optsEx envOk envOk
    fsEmpty (by decide) rfl rfl (by decide) rfl rfl rfl).1

end Terragrunt
